import Mathlib

/-!
Shallow embedding of the pizza-haven backend (`backend/server.js`, plus the
variant routes in the repository's related server snapshots): the admin
session gate, the login flow, and the CRUD handlers over the three tables,
with the persistence collaborator modelled as explicit in-memory state and
every issued SQL statement recorded.
-/

namespace PizzaHaven

/-- JavaScript/JSON values as they flow through request bodies, database
columns and responses.  Numeric values are represented by integers; no
property verified here depends on fractional numeric values. -/
inductive Json where
  | null
  | bool (value : Bool)
  | num (value : Int)
  | str (value : String)
  | arr (items : List Json)
  | obj (entries : List (String × Json))

/-- JavaScript truthiness of a value (`!x` in the source is `!x.truthy`). -/
def Json.truthy : Json → Bool
  | .null => false
  | .bool b => b
  | .num n => n != 0
  | .str s => s != ""
  | .arr _ => true
  | .obj _ => true

/-- Property access `body.k`: `none` models JavaScript `undefined`
(absent property, or access on a non-object request body). -/
def jsGet : Json → String → Option Json
  | .obj fields, k => fields.lookup k
  | _, _ => none

/-- Truthiness of a possibly-absent value (`undefined` is falsy). -/
def truthyOpt : Option Json → Bool
  | none => false
  | some j => j.truthy

/-- `a || dflt` on a possibly-absent value, as in
`const payment_method = paymentMethod || "COD"` (server.js). -/
def jsOr (a : Option Json) (dflt : Json) : Json :=
  match a with
  | none => dflt
  | some j => if j.truthy then j else dflt

/-- Destructuring default `const { x = d } = body`: the default applies
exactly when the property is absent (`undefined`), not when it is `null`. -/
def jsGetD (body : Json) (k : String) (d : Json) : Json :=
  (jsGet body k).getD d

/-- JavaScript strict equality `j === "lit"` of a value against a string
literal: true iff `j` is a string with that exact content. -/
def Json.strEq (j : Json) (s : String) : Bool :=
  match j with
  | .str t => t == s
  | _ => false

/-- An HTTP response: status code and JSON body (`res.status(..).json(..)`;
`res.json(..)` alone is status 200). -/
structure Response where
  status : Nat
  body : Json

/-! ### Sessions and the admin guard (server.js lines 49-81) -/

/-- A server-side session record as the session middleware stores it:
the `admin` flag set by login, and the absolute expiry instant derived
from the cookie's `maxAge` (1 hour in the source configuration). -/
structure SessionRecord where
  admin : Bool
  expiresAt : Nat
deriving DecidableEq, Repr

/-- The session store: opaque cookie token to session record. -/
abbrev SessionStore := List (String × SessionRecord)

/-- Session resolution performed by the configured `express-session`
middleware before any handler runs: `req.session` holds data only when the
request carries a cookie whose token is a live (unexpired) entry of the
store; otherwise the request reaches the handlers with no session data. -/
def resolveSession (store : SessionStore) (cookie : Option String) (now : Nat) :
    Option SessionRecord :=
  match cookie with
  | none => none
  | some tok =>
    match store.lookup tok with
    | none => none
    | some r => if now < r.expiresAt then some r else none

/-- `adminAuth` (server.js lines 76-81): pass the request through iff the
resolved session carries a truthy `admin` flag. -/
def adminAuth : Option SessionRecord → Bool
  | some r => r.admin
  | none => false

/-- The uniform deny response of `adminAuth`:
`res.status(401).json({ error: "Unauthorized" })`. -/
def unauthorizedResponse : Response :=
  { status := 401, body := .obj [("error", .str "Unauthorized")] }

/-- The whole guard pipeline on a raw request: resolve the session from the
cookie, then run `adminAuth`; `none` means the request proceeds to the
handler, `some r` means it is answered immediately with `r`. -/
def guard (store : SessionStore) (cookie : Option String) (now : Nat) :
    Option Response :=
  if adminAuth (resolveSession store cookie now) then none
  else some unauthorizedResponse

/-! ### Login (server.js lines 84-108) -/

/-- The compiled-in administrator identity (server.js lines 68-72). -/
structure AdminUser where
  username : String
  passwordHash : String
deriving DecidableEq, Repr

def adminUser : AdminUser :=
  { username := "Owner"
    passwordHash := "$2a$10$Yk.2KdOdPUENankA9Y.p8.oRkqAO0vQfJB.msmQG4Fh.tLopedroW" }

/-- Result of `POST /admin/login`: the HTTP response, and whether
`req.session.admin = true` was established.  `compare p h` abstracts
`bcrypt.compare(p, h)` (an external primitive; any boolean oracle). -/
def login (compare : String → String → Bool) (username password : String) :
    Response × Bool :=
  if username ≠ adminUser.username then
    ({ status := 401, body := .obj [("success", .bool false)] }, false)
  else if ¬ compare password adminUser.passwordHash then
    ({ status := 401, body := .obj [("success", .bool false)] }, false)
  else
    ({ status := 200, body := .obj [("success", .bool true)] }, true)

/-! ### `JSON.parse` / `JSON.stringify`

The handlers call the JavaScript builtins `JSON.parse` (GET /api/orders
normalisation) and `JSON.stringify` (order `items` serialisation).  They are
modelled here by an executable recursive-descent parser and serialiser over
`Json`.  Numeric values are kept as the integer part of the mantissa
(fraction and exponent are consumed syntactically); no verified property
depends on fractional numeric values. -/

/-- The opening-brace character. -/
def lbrace : Char := Char.ofNat 123

/-- The closing-brace character. -/
def rbrace : Char := Char.ofNat 125

def isWsChar (c : Char) : Bool :=
  [' ', '\t', '\n', '\r'].contains c

def skipWs : List Char → List Char
  | [] => []
  | c :: rest => if isWsChar c then skipWs rest else c :: rest

/-- Single-character escapes accepted after a backslash in a JSON string. -/
def decodeEscape (c : Char) : Option Char :=
  match c with
  | 'n' => some (Char.ofNat 10)
  | 't' => some (Char.ofNat 9)
  | 'r' => some (Char.ofNat 13)
  | 'b' => some (Char.ofNat 8)
  | 'f' => some (Char.ofNat 12)
  | _ => if c == '"' || c == '\\' || c == '/' then some c else none

/-- The value of one hexadecimal digit. -/
def nibble (c : Char) : Option Nat :=
  let n := c.toNat
  if 48 ≤ n ∧ n ≤ 57 then some (n - 48)
  else if 97 ≤ n ∧ n ≤ 102 then some (n - 87)
  else if 65 ≤ n ∧ n ≤ 70 then some (n - 55)
  else none

/-- Parse the body of a JSON string after its opening quote: returns the
decoded characters and the input remaining after the closing quote. -/
def parseStringBody : List Char → Option (List Char × List Char)
  | [] => none
  | c :: rest =>
    if c == '"' then some ([], rest)
    else if c == '\\' then
      match rest with
      | [] => none
      | e :: rest2 =>
        if e == 'u' then
          match rest2 with
          | a :: b :: c2 :: d :: rest3 =>
            match nibble a, nibble b, nibble c2, nibble d with
            | some x1, some x2, some x3, some x4 =>
              match parseStringBody rest3 with
              | some (t, r) =>
                some (Char.ofNat (4096 * x1 + 256 * x2 + 16 * x3 + x4) :: t, r)
              | none => none
            | _, _, _, _ => none
          | _ => none
        else
          match decodeEscape e with
          | some ch =>
            match parseStringBody rest2 with
            | some (t, r) => some (ch :: t, r)
            | none => none
          | none => none
    else
      match parseStringBody rest with
      | some (t, r) => some (c :: t, r)
      | none => none

def spanDigits (cs : List Char) : List Char × List Char :=
  match cs with
  | c :: rest =>
    if c.isDigit then
      let p := spanDigits rest
      (c :: p.1, p.2)
    else ([], cs)
  | [] => ([], [])

def digitsToNat (ds : List Char) : Nat :=
  ds.foldl (fun acc c => 10 * acc + (c.toNat - 48)) 0

/-- Consume an optional fraction part `.digits`. -/
def parseFracPart (r0 : List Char) : Option (List Char) :=
  match r0 with
  | '.' :: r1 =>
    match spanDigits r1 with
    | ([], _) => none
    | (_, r2) => some r2
  | _ => some r0

/-- Consume an optional exponent part `(e|E)(+|-)?digits`. -/
def parseExpPart (r3 : List Char) : Option (List Char) :=
  match r3 with
  | e :: r4 =>
    if e == 'e' || e == 'E' then
      match r4 with
      | s :: r6 =>
        if s == '+' || s == '-' then
          match spanDigits r6 with
          | ([], _) => none
          | (_, r7) => some r7
        else
          match spanDigits r4 with
          | ([], _) => none
          | (_, r7) => some r7
      | [] => none
    else some r3
  | [] => some r3

def parseNumCore (neg : Bool) (cs1 : List Char) : Option (Json × List Char) :=
  match spanDigits cs1 with
  | ([], _) => none
  | (ds, r0) =>
    if ds.length > 1 && ds.head? == some '0' then none
    else
      match parseFracPart r0 with
      | none => none
      | some r2 =>
        match parseExpPart r2 with
        | none => none
        | some rf =>
          some (.num (if neg then -(Int.ofNat (digitsToNat ds))
                      else Int.ofNat (digitsToNat ds)), rf)

/-- Parse a JSON number (integer value kept; fraction and exponent are
consumed but do not contribute to the value). -/
def parseNum (cs : List Char) : Option (Json × List Char) :=
  match cs with
  | '-' :: cs1 => parseNumCore true cs1
  | _ => parseNumCore false cs

/-- Consume the tail of a keyword literal. -/
def dropLit : List Char → List Char → Option (List Char)
  | [], cs => some cs
  | k :: ks, c :: cs => if c == k then dropLit ks cs else none
  | _ :: _, [] => none

mutual

/-- Fuel-indexed recursive-descent parser for a JSON value. -/
def parseVal : Nat → List Char → Option (Json × List Char)
  | 0, _ => none
  | fuel + 1, cs =>
    match skipWs cs with
    | [] => none
    | c :: rest =>
      if c == '"' then
        match parseStringBody rest with
        | some (t, r) => some (.str (String.mk t), r)
        | none => none
      else if c == 't' then
        match dropLit ['r', 'u', 'e'] rest with
        | some r => some (.bool true, r)
        | none => none
      else if c == 'f' then
        match dropLit ['a', 'l', 's', 'e'] rest with
        | some r => some (.bool false, r)
        | none => none
      else if c == 'n' then
        match dropLit ['u', 'l', 'l'] rest with
        | some r => some (.null, r)
        | none => none
      else if c == '[' then
        match skipWs rest with
        | ']' :: r => some (.arr [], r)
        | cs2 =>
          match parseElems fuel cs2 with
          | some (xs, r) => some (.arr xs, r)
          | none => none
      else if c == lbrace then
        match skipWs rest with
        | c2 :: r2 =>
          if c2 == rbrace then some (.obj [], r2)
          else
            match parseMembers fuel (c2 :: r2) with
            | some (fs, r) => some (.obj fs, r)
            | none => none
        | [] => none
      else
        parseNum (c :: rest)

/-- One-or-more comma-separated array elements followed by `]`. -/
def parseElems : Nat → List Char → Option (List Json × List Char)
  | 0, _ => none
  | fuel + 1, cs =>
    match parseVal fuel cs with
    | none => none
    | some (v, r) =>
      match skipWs r with
      | ',' :: r2 =>
        match parseElems fuel r2 with
        | some (xs, r3) => some (v :: xs, r3)
        | none => none
      | ']' :: r2 => some ([v], r2)
      | _ => none

/-- One-or-more comma-separated object members followed by `\x7d`. -/
def parseMembers : Nat → List Char → Option (List (String × Json) × List Char)
  | 0, _ => none
  | fuel + 1, cs =>
    match skipWs cs with
    | '"' :: rest =>
      match parseStringBody rest with
      | none => none
      | some (k, r) =>
        match skipWs r with
        | ':' :: r2 =>
          match parseVal fuel r2 with
          | none => none
          | some (v, r3) =>
            match skipWs r3 with
            | c4 :: r4 =>
              if c4 == ',' then
                match parseMembers fuel r4 with
                | some (fs, r5) => some ((String.mk k, v) :: fs, r5)
                | none => none
              else if c4 == rbrace then some ([(String.mk k, v)], r4)
              else none
            | [] => none
        | _ => none
    | _ => none

end

/-- `JSON.parse`: parse a whole string as one JSON value (trailing
whitespace allowed); `none` models a thrown `SyntaxError`. -/
def parseJson (s : String) : Option Json :=
  match parseVal (2 * s.length + 2) s.data with
  | some (v, rest) => if (skipWs rest).isEmpty then some v else none
  | none => none

def escapeChar (c : Char) : List Char :=
  match c with
  | '\n' => ['\\', 'n']
  | '\t' => ['\\', 't']
  | '\r' => ['\\', 'r']
  | _ => if c == '"' || c == '\\' then ['\\', c] else [c]

def escapeString (s : String) : String :=
  String.mk (s.data.flatMap escapeChar)

mutual

/-- `JSON.stringify` on a defined value. -/
def stringifyJson : Json → String
  | .null => "null"
  | .bool true => "true"
  | .bool false => "false"
  | .num n => toString n
  | .str s => "\"" ++ escapeString s ++ "\""
  | .arr xs => "[" ++ stringifyList xs ++ "]"
  | .obj fs => "\x7b" ++ stringifyFields fs ++ "\x7d"

def stringifyList : List Json → String
  | [] => ""
  | [x] => stringifyJson x
  | x :: y :: xs => stringifyJson x ++ "," ++ stringifyList (y :: xs)

def stringifyFields : List (String × Json) → String
  | [] => ""
  | [(k, v)] => "\"" ++ escapeString k ++ "\":" ++ stringifyJson v
  | (k, v) :: f :: fs =>
    "\"" ++ escapeString k ++ "\":" ++ stringifyJson v ++ "," ++ stringifyFields (f :: fs)

end

/-! ### Rows and the persistence collaborator

Column layout from `backend/createTables.js`: `pizzas(id, name, price,
image)`, `orders(id, name, phone, address, items, total, payment_method,
payment_status, transaction_id, status, created_at)`, `messages(id, name,
email, message, created_at)`.  Store-assigned ids and creation timestamps
are modelled by per-table counters (timestamps only ever feed `ORDER BY`). -/

/-- `Number(x)` as applied to the `price` field before insertion; `none`
models `NaN`.  String conversion covers integer literals (no verified
property depends on the stored numeric value). -/
def jsNumber : Json → Option Int
  | .null => some 0
  | .bool b => some (if b then 1 else 0)
  | .num n => some n
  | .str s => if s == "" then some 0 else s.toInt?
  | .arr _ => none
  | .obj _ => none

structure PizzaRow where
  id : Nat
  name : Json
  price : Option Int
  image : Json

structure OrderRow where
  id : Nat
  name : Json
  phone : Json
  address : Json
  items : Json
  total : Json
  payment_method : Json
  payment_status : Json
  transaction_id : Json
  status : Json
  created_at : Nat

structure MessageRow where
  id : Nat
  name : Json
  email : Json
  message : Json
  created_at : Nat

structure Db where
  pizzas : List PizzaRow
  orders : List OrderRow
  messages : List MessageRow
  nextPizzaId : Nat
  nextOrderId : Nat
  nextMessageId : Nat

/-- Stable insertion step for an ascending sort by a `Nat` key. -/
def insertAscBy (key : α → Nat) (x : α) : List α → List α
  | [] => [x]
  | y :: ys => if key x ≤ key y then x :: y :: ys else y :: insertAscBy key x ys

/-- `ORDER BY key` ascending. -/
def sortAscBy (key : α → Nat) (l : List α) : List α :=
  l.foldr (insertAscBy key) []

def insertDescBy (key : α → Nat) (x : α) : List α → List α
  | [] => [x]
  | y :: ys => if key y ≤ key x then x :: y :: ys else y :: insertDescBy key x ys

/-- `ORDER BY key DESC`. -/
def sortDescBy (key : α → Nat) (l : List α) : List α :=
  l.foldr (insertDescBy key) []

def pizzaToJson (p : PizzaRow) : Json :=
  .obj [("id", .num p.id), ("name", p.name),
        ("price", match p.price with | some n => .num n | none => .null),
        ("image", p.image)]

def orderToJson (o : OrderRow) : Json :=
  .obj [("id", .num o.id), ("name", o.name), ("phone", o.phone),
        ("address", o.address), ("items", o.items), ("total", o.total),
        ("payment_method", o.payment_method),
        ("payment_status", o.payment_status),
        ("transaction_id", o.transaction_id), ("status", o.status),
        ("created_at", .num o.created_at)]

def messageToJson (m : MessageRow) : Json :=
  .obj [("id", .num m.id), ("name", m.name), ("email", m.email),
        ("message", m.message), ("created_at", .num m.created_at)]

/-! ### Request handlers (server.js lines 125-286, plus the snapshot-only
routes of the related server files) -/

/-- An inbound request after the framework middleware: resolved session
data, parsed JSON body, and the numeric `:id` path parameter (routes
without a path parameter ignore it). -/
structure Req where
  session : Option SessionRecord
  body : Json
  param : Nat

/-- A handler's observable outcome: the response, the store afterwards,
and the SQL statements issued to the persistence collaborator, in order. -/
structure HandlerResult where
  resp : Response
  db : Db
  queries : List String

abbrev Handler := Req → Db → HandlerResult

/-- Registering `adminAuth` as route middleware: the handler body runs only
when the guard passes; otherwise the request is answered 401 with no query
issued and the store untouched. -/
def withGuard (h : Handler) : Handler := fun req db =>
  if adminAuth req.session then h req db
  else { resp := unauthorizedResponse, db := db, queries := [] }

def okSuccess : Response :=
  { status := 200, body := .obj [("success", .bool true)] }

/-- `GET /api/pizzas` (public). -/
def getPizzasHandler : Handler := fun _req db =>
  { resp := { status := 200
              body := .arr ((sortAscBy PizzaRow.id db.pizzas).map pizzaToJson) }
    db := db
    queries := ["SELECT * FROM pizzas ORDER BY id"] }

/-- `POST /api/pizzas` body (admin): field presence check with JavaScript
truthiness (`if (!name || !price || !image)`), then the insert. -/
def postPizzasHandler : Handler := fun req db =>
  let name := jsGet req.body "name"
  let price := jsGet req.body "price"
  let image := jsGet req.body "image"
  if !truthyOpt name || !truthyOpt price || !truthyOpt image then
    { resp := { status := 400, body := .obj [("error", .str "Missing fields")] }
      db := db
      queries := [] }
  else
    { resp := okSuccess
      db := { db with
                pizzas := db.pizzas ++
                  [{ id := db.nextPizzaId
                     name := name.getD .null
                     price := jsNumber (price.getD .null)
                     image := image.getD .null }]
                nextPizzaId := db.nextPizzaId + 1 }
      queries := ["INSERT INTO pizzas (name, price, image) VALUES ($1,$2,$3)"] }

/-- `DELETE /api/pizzas/:id` body (admin): unconditional delete, success
response regardless of how many rows matched (no rowCount check). -/
def deletePizzaHandler : Handler := fun req db =>
  { resp := okSuccess
    db := { db with pizzas := db.pizzas.filter (fun p => p.id != req.param) }
    queries := ["DELETE FROM pizzas WHERE id=$1"] }

/-- The `fixed` map of `GET /api/orders`: `items: typeof o.items ===
"string" ? JSON.parse(o.items) : o.items`; `none` models the `JSON.parse`
throw escaping to the handler's catch block. -/
def fixItems (o : OrderRow) : Option OrderRow :=
  match o.items with
  | .str s =>
    match parseJson s with
    | some v => some { o with items := v }
    | none => none
  | _ => some o

def optTraverse (f : α → Option β) : List α → Option (List β)
  | [] => some []
  | a :: as =>
    match f a with
    | none => none
    | some b =>
      match optTraverse f as with
      | none => none
      | some bs => some (b :: bs)

def fixOrders : List OrderRow → Option (List OrderRow) :=
  optTraverse fixItems

/-- `GET /api/orders` body (admin): select rows newest-first, normalise
each row's `items`, or answer 500 with an empty array when a row's items
string fails to parse. -/
def getOrdersHandler : Handler := fun _req db =>
  match fixOrders (sortDescBy OrderRow.created_at db.orders) with
  | some fixed =>
    { resp := { status := 200, body := .arr (fixed.map orderToJson) }
      db := db
      queries := ["SELECT * FROM orders ORDER BY created_at DESC"] }
  | none =>
    { resp := { status := 500, body := .arr [] }
      db := db
      queries := ["SELECT * FROM orders ORDER BY created_at DESC"] }

/-- `POST /api/orders` (public): infer `payment_method` (falsy body value
defaults to `"COD"`) and the initial `payment_status`, insert the row with
`items` serialised by `JSON.stringify`, and answer with the new id and the
`paymentRequired` flag. -/
def postOrdersHandler : Handler := fun req db =>
  let paymentMethod := jsGet req.body "paymentMethod"
  let payment_method := jsOr paymentMethod (.str "COD")
  let payment_status : Json :=
    if payment_method.strEq "COD" then .str "Paid" else .str "Pending"
  let row : OrderRow :=
    { id := db.nextOrderId
      name := (jsGet req.body "name").getD .null
      phone := (jsGet req.body "phone").getD .null
      address := (jsGet req.body "address").getD .null
      items :=
        match jsGet req.body "items" with
        | some j => .str (stringifyJson j)
        | none => .null
      total := (jsGet req.body "total").getD .null
      payment_method := payment_method
      payment_status := payment_status
      transaction_id := .null
      status := .null
      created_at := db.nextOrderId }
  { resp := { status := 200
              body := .obj [("orderId", .num db.nextOrderId),
                            ("paymentRequired", .bool (!payment_method.strEq "COD"))] }
    db := { db with orders := db.orders ++ [row], nextOrderId := db.nextOrderId + 1 }
    queries := ["INSERT INTO orders (name, phone, address, items, total, payment_method, payment_status) VALUES ($1,$2,$3,$4,$5,$6,$7) RETURNING id"] }

/-- `PATCH /api/orders/:id` body (admin): set `payment_status` of every row
matching the id to the body value verbatim (absent property reaches the
driver as SQL NULL), success response with no rowCount check. -/
def patchOrderHandler : Handler := fun req db =>
  let payment_status := (jsGet req.body "payment_status").getD .null
  { resp := okSuccess
    db := { db with
              orders := db.orders.map fun o =>
                if o.id = req.param then { o with payment_status := payment_status } else o }
    queries := ["UPDATE orders SET payment_status=$1 WHERE id=$2"] }

/-- `DELETE /api/orders/:id` body (admin): unconditional delete, success
response with no rowCount check. -/
def deleteOrderHandler : Handler := fun req db =>
  { resp := okSuccess
    db := { db with orders := db.orders.filter (fun o => o.id != req.param) }
    queries := ["DELETE FROM orders WHERE id=$1"] }

/-- `POST /api/confirm-payment/:id` (public; present in the related server
snapshot, lines 405-418): update `transaction_id` (destructuring default
`"N/A"`) and force `payment_status='Paid'` on the matching row, then 404
iff the update touched no row. -/
def confirmPaymentHandler : Handler := fun req db =>
  let transactionId := jsGetD req.body "transactionId" (.str "N/A")
  let newOrders := db.orders.map fun o =>
    if o.id = req.param then
      { o with transaction_id := transactionId, payment_status := .str "Paid" }
    else o
  let rowCount := db.orders.countP (fun o => o.id = req.param)
  if rowCount = 0 then
    { resp := { status := 404, body := .obj [("success", .bool false)] }
      db := { db with orders := newOrders }
      queries := ["UPDATE orders SET transaction_id=$1, payment_status='Paid' WHERE id=$2"] }
  else
    { resp := okSuccess
      db := { db with orders := newOrders }
      queries := ["UPDATE orders SET transaction_id=$1, payment_status='Paid' WHERE id=$2"] }

/-- `GET /api/messages` body (admin). -/
def getMessagesHandler : Handler := fun _req db =>
  { resp := { status := 200
              body := .arr ((sortDescBy MessageRow.created_at db.messages).map messageToJson) }
    db := db
    queries := ["SELECT * FROM messages ORDER BY created_at DESC"] }

/-- `POST /api/messages` (public): unconditional insert. -/
def postMessagesHandler : Handler := fun req db =>
  { resp := okSuccess
    db := { db with
              messages := db.messages ++
                [{ id := db.nextMessageId
                   name := (jsGet req.body "name").getD .null
                   email := (jsGet req.body "email").getD .null
                   message := (jsGet req.body "message").getD .null
                   created_at := db.nextMessageId }]
              nextMessageId := db.nextMessageId + 1 }
    queries := ["INSERT INTO messages (name,email,message) VALUES ($1,$2,$3)"] }

/-- `DELETE /api/messages/:id` body (admin; present in the related server
snapshots): unconditional delete, success response with no rowCount
check. -/
def deleteMessageHandler : Handler := fun req db =>
  { resp := okSuccess
    db := { db with messages := db.messages.filter (fun m => m.id != req.param) }
    queries := ["DELETE FROM messages WHERE id=$1"] }

/-! ### Route registrations: which routes carry the `adminAuth` middleware
(exactly as in the `app.get/post/patch/delete` calls of the source) -/

def getPizzasRoute : Handler := getPizzasHandler

def postPizzasRoute : Handler := withGuard postPizzasHandler

def deletePizzaRoute : Handler := withGuard deletePizzaHandler

def getOrdersRoute : Handler := withGuard getOrdersHandler

def postOrdersRoute : Handler := postOrdersHandler

def patchOrderRoute : Handler := withGuard patchOrderHandler

def deleteOrderRoute : Handler := withGuard deleteOrderHandler

def confirmPaymentRoute : Handler := confirmPaymentHandler

def getMessagesRoute : Handler := withGuard getMessagesHandler

def postMessagesRoute : Handler := postMessagesHandler

def deleteMessageRoute : Handler := withGuard deleteMessageHandler

/-! ### Parser facts: a parse that yields a string strictly shrinks it,
so `JSON.parse` never returns the very string it was given -/

theorem skipWs_length (cs : List Char) : (skipWs cs).length ≤ cs.length := by
  induction cs with
  | nil => simp [skipWs]
  | cons c rest ih =>
    rw [skipWs]
    split
    · exact Nat.le_trans ih (Nat.le_succ _)
    · simp

theorem parseStringBody_length (cs : List Char) :
    ∀ t r, parseStringBody cs = some (t, r) → t.length + r.length < cs.length := by
  induction cs using parseStringBody.induct
  all_goals intro t r h
  all_goals rw [parseStringBody.eq_def] at h
  all_goals try simp_all
  all_goals try (obtain ⟨rfl, rfl⟩ := h)
  all_goals try simp_all
  all_goals try omega

/-- A successful `parseNumCore` always yields a numeric value. -/
theorem parseNumCore_isNum (neg : Bool) (cs1 : List Char) (v : Json)
    (r : List Char) (h : parseNumCore neg cs1 = some (v, r)) :
    ∃ n, v = Json.num n := by
  rw [parseNumCore.eq_def] at h
  repeat' split at h
  all_goals try simp_all
  all_goals exact ⟨_, h.1.symm⟩

/-- A successful `parseNum` always yields a numeric value. -/
theorem parseNum_isNum (cs : List Char) (v : Json) (r : List Char)
    (h : parseNum cs = some (v, r)) : ∃ n, v = Json.num n := by
  rw [parseNum.eq_def] at h
  split at h
  · exact parseNumCore_isNum _ _ _ _ h
  · exact parseNumCore_isNum _ _ _ _ h

/-- A `parseVal` success that yields a string took its content from a
quoted literal: the content is at least two characters shorter than the
consumed input. -/
theorem parseVal_str_length (fuel : Nat) (cs : List Char) (s : String)
    (r : List Char) (h : parseVal fuel cs = some (.str s, r)) :
    s.length + 2 ≤ cs.length := by
  match fuel with
  | 0 => simp [parseVal] at h
  | fuel + 1 =>
    rw [parseVal.eq_def] at h
    have hws := skipWs_length cs
    repeat' split at h
    all_goals try simp_all
    · obtain ⟨hs, _⟩ := h
      have hlen := parseStringBody_length _ _ _ (by assumption)
      subst hs
      simp only [String.length]
      omega
    · obtain ⟨n, hn⟩ := parseNum_isNum _ _ _ h
      exact absurd hn (by simp)

/-- A whole-string parse that yields a string value strictly shrank it. -/
theorem parseJson_str_length (s t : String) (h : parseJson s = some (.str t)) :
    t.length + 2 ≤ s.length := by
  unfold parseJson at h
  repeat' split at h
  all_goals try simp_all
  rename_i v rest hval hws
  have := parseVal_str_length _ _ _ _ hval
  have hs : s.length = s.data.length := rfl
  omega

/-- `JSON.parse` never returns the very string it was given: the parsed
value of a serialised string is distinct from the raw serialised string. -/
theorem parseJson_ne_str_self (s : String) (v : Json)
    (h : parseJson s = some v) : v ≠ .str s := by
  intro hv
  subst hv
  have := parseJson_str_length s s h
  omega

/-! ### Support lemmas about the handlers -/

theorem optTraverse_spec (f : α → Option β) :
    ∀ (l : List α) (out : List β), optTraverse f l = some out →
      out.length = l.length ∧
      ∀ i (h1 : i < l.length) (h2 : i < out.length),
        f (l.get ⟨i, h1⟩) = some (out.get ⟨i, h2⟩) := by
  intro l
  induction l with
  | nil =>
    intro out h
    simp only [optTraverse, Option.some.injEq] at h
    subst h
    refine ⟨rfl, ?_⟩
    intro i h1 h2
    simp at h1
  | cons a as ih =>
    intro out h
    unfold optTraverse at h
    split at h
    · exact absurd h (by simp)
    · rename_i b hb
      split at h
      · exact absurd h (by simp)
      · rename_i bs hbs
        obtain rfl : b :: bs = out := by simpa using h
        obtain ⟨hlen, hidx⟩ := ih bs hbs
        refine ⟨by simp [hlen], ?_⟩
        intro i h1 h2
        match i with
        | 0 => simpa using hb
        | i + 1 =>
          exact hidx i (by simpa using h1) (by simpa using h2)

theorem fixItems_spec (o o' : OrderRow) (h : fixItems o = some o') :
    ({ o' with items := o.items } = o) ∧
    (∀ s, o.items = .str s → parseJson s = some o'.items ∧ o'.items ≠ .str s) ∧
    ((∀ s, o.items ≠ .str s) → o' = o) := by
  unfold fixItems at h
  split at h
  · rename_i s hs
    split at h
    · rename_i v hv
      obtain rfl : { o with items := v } = o' := by simpa using h
      refine ⟨rfl, ?_, ?_⟩
      · intro s2 hs2
        rw [hs] at hs2
        injection hs2 with he
        subst he
        exact ⟨hv, parseJson_ne_str_self _ _ hv⟩
      · intro hnone
        exact absurd hs (hnone s)
    · exact absurd h (by simp)
  · rename_i hnotstr
    obtain rfl : o = o' := by simpa using h
    refine ⟨rfl, ?_, ?_⟩
    · intro s hs
      exact absurd hs (hnotstr s)
    · intro _
      rfl

/-- `a || d` collapses to the default on a falsy left operand. -/
theorem jsOr_falsy (a : Option Json) (d : Json) (h : truthyOpt a = false) :
    jsOr a d = d := by
  unfold jsOr
  match a with
  | none => rfl
  | some j =>
    simp only [truthyOpt] at h
    simp [h]

/-- `a || d` keeps a truthy left operand. -/
theorem jsOr_truthy (j : Json) (d : Json) (h : j.truthy = true) :
    jsOr (some j) d = j := by
  simp [jsOr, h]

/-! ### Shared concrete fixtures for witnesses and counterexamples -/

def emptyDb : Db :=
  { pizzas := [], orders := [], messages := []
    nextPizzaId := 1, nextOrderId := 1, nextMessageId := 1 }

/-- A live admin session record, as established by a successful login. -/
def adminSession : SessionRecord := { admin := true, expiresAt := 1 }

/-! ### Claim C3 -/

/-- C3: the two login failure causes — a username different from the
administrator's, or the correct username with a non-matching password —
produce the very same response (status 401, body `\x7b success: false \x7d`),
and neither establishes a session, so the caller cannot tell which check
failed. -/
theorem login_failures_indistinguishable
    (compare : String → String → Bool) (u1 p1 p2 : String)
    (hu : u1 ≠ adminUser.username)
    (hp : compare p2 adminUser.passwordHash = false) :
    login compare u1 p1 = login compare adminUser.username p2 ∧
    login compare u1 p1 =
      ({ status := 401, body := .obj [("success", .bool false)] }, false) := by
  unfold login
  simp [hu, hp]

theorem login_failures_indistinguishable_witness :
    ("Eve" ≠ adminUser.username) ∧
    ((fun _ _ => false : String → String → Bool) "pw2" adminUser.passwordHash
        = false) ∧
    (login (fun _ _ => false) "Eve" "pw1"
        = login (fun _ _ => false) adminUser.username "pw2" ∧
      login (fun _ _ => false) "Eve" "pw1" =
        ({ status := 401, body := .obj [("success", .bool false)] }, false)) :=
  ⟨by decide, rfl,
    login_failures_indistinguishable (fun _ _ => false) "Eve" "pw1" "pw2"
      (by decide) rfl⟩

/-! ### Claim C4 -/

/-- C4: the admin guard lets a request through iff its cookie names a
stored, unexpired session whose `admin` flag is true; in every other case
(no cookie, unknown session id, expired session, or `admin = false`) the
request is answered immediately, always with the same 401 Unauthorized
response. -/
theorem adminAuth_allow_iff_live_admin_session
    (store : SessionStore) (cookie : Option String) (now : Nat) :
    (guard store cookie now = none ↔
      ∃ tok r, cookie = some tok ∧ store.lookup tok = some r ∧
        now < r.expiresAt ∧ r.admin = true) ∧
    (guard store cookie now = none ∨
      guard store cookie now = some unauthorizedResponse) ∧
    unauthorizedResponse.status = 401 := by
  refine ⟨?_, ?_, rfl⟩
  · unfold guard resolveSession
    match cookie with
    | none => simp [adminAuth]
    | some tok =>
      match hl : store.lookup tok with
      | none => simp [adminAuth, hl]
      | some r =>
        by_cases hexp : now < r.expiresAt
        · by_cases hadm : r.admin <;> simp [adminAuth, hl, hexp, hadm]
        · simp [adminAuth, hl, hexp]
  · unfold guard
    split
    · exact Or.inl rfl
    · exact Or.inr rfl

theorem adminAuth_allow_iff_live_admin_session_witness :
    (guard [("tok", adminSession)] (some "tok") 0 = none ↔
      ∃ tok r, (some "tok" : Option String) = some tok ∧
        [("tok", adminSession)].lookup tok = some r ∧
        0 < r.expiresAt ∧ r.admin = true) ∧
    (guard [("tok", adminSession)] (some "tok") 0 = none ∨
      guard [("tok", adminSession)] (some "tok") 0 = some unauthorizedResponse) ∧
    unauthorizedResponse.status = 401 :=
  adminAuth_allow_iff_live_admin_session [("tok", adminSession)] (some "tok") 0

/-! ### Claim C9 -/

/-- C9: an order request whose `paymentMethod` is absent or falsy
(`undefined`, `null`, empty string, …) is silently treated as
cash-on-delivery: the stored row gets `payment_method = "COD"` and
`payment_status = "Paid"`, and the response carries
`paymentRequired = false`. -/
theorem postOrders_missing_paymentMethod_is_cod_paid (req : Req) (db : Db)
    (h : truthyOpt (jsGet req.body "paymentMethod") = false) :
    (postOrdersRoute req db).db.orders.getLast?.map OrderRow.payment_method
        = some (.str "COD") ∧
    (postOrdersRoute req db).db.orders.getLast?.map OrderRow.payment_status
        = some (.str "Paid") ∧
    jsGet (postOrdersRoute req db).resp.body "paymentRequired"
        = some (.bool false) ∧
    (postOrdersRoute req db).resp.status = 200 := by
  unfold postOrdersRoute postOrdersHandler
  simp only [jsOr_falsy _ _ h]
  refine ⟨?_, ?_, ?_, ?_⟩ <;>
    simp [Json.strEq, List.getLast?_append_cons, jsGet, List.lookup]

def reqNoPm : Req := { session := none, body := .obj [], param := 0 }

theorem postOrders_missing_paymentMethod_is_cod_paid_witness :
    truthyOpt (jsGet reqNoPm.body "paymentMethod") = false ∧
    ((postOrdersRoute reqNoPm emptyDb).db.orders.getLast?.map
          OrderRow.payment_method = some (.str "COD") ∧
      (postOrdersRoute reqNoPm emptyDb).db.orders.getLast?.map
          OrderRow.payment_status = some (.str "Paid") ∧
      jsGet (postOrdersRoute reqNoPm emptyDb).resp.body "paymentRequired"
          = some (.bool false) ∧
      (postOrdersRoute reqNoPm emptyDb).resp.status = 200) :=
  ⟨rfl, postOrders_missing_paymentMethod_is_cod_paid reqNoPm emptyDb rfl⟩

/-! ### Claim C1 -/

/-- `j === "s"` is false when `j` is not that string value. -/
theorem strEq_eq_false_of_ne (j : Json) (s : String) (h : j ≠ .str s) :
    j.strEq s = false := by
  unfold Json.strEq
  match j with
  | .null | .bool _ | .num _ | .arr _ | .obj _ => rfl
  | .str t =>
    simp only [beq_eq_false_iff_ne, ne_eq]
    intro he
    exact h (by rw [he])

/-- What `POST /api/orders` stores and answers, in terms of the effective
payment method `paymentMethod || "COD"`: shared base fact for the payment
inference claims. -/
theorem postOrders_effective (req : Req) (db : Db) :
    (postOrdersRoute req db).db.orders.getLast?.map OrderRow.payment_method
        = some (jsOr (jsGet req.body "paymentMethod") (.str "COD")) ∧
    (postOrdersRoute req db).db.orders.getLast?.map OrderRow.payment_status
        = some (if (jsOr (jsGet req.body "paymentMethod") (.str "COD")).strEq "COD"
                then Json.str "Paid" else Json.str "Pending") ∧
    jsGet (postOrdersRoute req db).resp.body "paymentRequired"
        = some (.bool (!(jsOr (jsGet req.body "paymentMethod") (.str "COD")).strEq "COD")) ∧
    (postOrdersRoute req db).resp.status = 200 := by
  unfold postOrdersRoute postOrdersHandler
  refine ⟨?_, ?_, rfl, rfl⟩ <;> simp [List.getLast?_append_cons]

def reqEmptyPm : Req :=
  { session := none, body := .obj [("paymentMethod", .str "")], param := 0 }

/-- C1 as stated fails at `paymentMethod = ""`: a payment-method value
other than `"COD"`, yet the created order's `payment_status` is `"Paid"`
and the response carries `paymentRequired = false`, where the claim
demands `"Pending"` and `paymentRequired = true`. -/
theorem postOrders_empty_paymentMethod_refutes_claim :
    jsGet reqEmptyPm.body "paymentMethod" = some (.str "") ∧
    Json.str "" ≠ Json.str "COD" ∧
    (postOrdersRoute reqEmptyPm emptyDb).db.orders.map OrderRow.payment_status
        = [.str "Paid"] ∧
    jsGet (postOrdersRoute reqEmptyPm emptyDb).resp.body "paymentRequired"
        = some (.bool false) := by
  refine ⟨rfl, ?_, rfl, rfl⟩
  intro h
  injection h with h2
  exact absurd h2 (by decide)

/-- C1 amended: the rule holds for the *effective* payment method.  A
truthy `paymentMethod` value other than `"COD"` yields an initial
`"Pending"` status and `paymentRequired = true`; `"COD"` itself — and any
falsy value, which the handler defaults to `"COD"` — yields `"Paid"` and
`paymentRequired = false`. -/
theorem postOrders_payment_rule (req : Req) (db : Db) :
    ((truthyOpt (jsGet req.body "paymentMethod") = false ∨
        jsGet req.body "paymentMethod" = some (.str "COD")) →
      ((postOrdersRoute req db).db.orders.getLast?.map OrderRow.payment_status
          = some (.str "Paid") ∧
        jsGet (postOrdersRoute req db).resp.body "paymentRequired"
          = some (.bool false))) ∧
    (∀ j, jsGet req.body "paymentMethod" = some j → j.truthy = true →
      j ≠ .str "COD" →
      ((postOrdersRoute req db).db.orders.getLast?.map OrderRow.payment_status
          = some (.str "Pending") ∧
        jsGet (postOrdersRoute req db).resp.body "paymentRequired"
          = some (.bool true))) := by
  obtain ⟨h1, h2, h3, _⟩ := postOrders_effective req db
  constructor
  · intro hcase
    have hm : jsOr (jsGet req.body "paymentMethod") (.str "COD") = .str "COD" := by
      rcases hcase with hf | hc
      · exact jsOr_falsy _ _ hf
      · rw [hc]
        exact jsOr_truthy _ _ rfl
    rw [hm] at h2 h3
    simpa [Json.strEq] using And.intro h2 h3
  · intro j hj htr hne
    have hm : jsOr (jsGet req.body "paymentMethod") (.str "COD") = j := by
      rw [hj]
      exact jsOr_truthy _ _ htr
    rw [hm] at h2 h3
    rw [strEq_eq_false_of_ne j "COD" hne] at h2 h3
    simpa using And.intro h2 h3

def reqOnlinePm : Req :=
  { session := none, body := .obj [("paymentMethod", .str "Online")], param := 0 }

theorem postOrders_payment_rule_witness :
    jsGet reqOnlinePm.body "paymentMethod" = some (.str "Online") ∧
    (Json.str "Online").truthy = true ∧
    Json.str "Online" ≠ Json.str "COD" ∧
    ((postOrdersRoute reqOnlinePm emptyDb).db.orders.getLast?.map
          OrderRow.payment_status = some (.str "Pending") ∧
      jsGet (postOrdersRoute reqOnlinePm emptyDb).resp.body "paymentRequired"
          = some (.bool true)) :=
  ⟨rfl, rfl, fun h => absurd (Json.str.inj h) (by decide),
    (postOrders_payment_rule reqOnlinePm emptyDb).2 (.str "Online") rfl rfl
      (fun h => absurd (Json.str.inj h) (by decide))⟩

/-! ### Claim C5 -/

def reqAdminId1 : Req := { session := some adminSession, body := .obj [], param := 1 }

/-- C5 as stated fails: deleting an id that matches no stored row (here
id 1 against empty tables) answers 200 `\x7b success: true \x7d` on all
three admin delete routes — a success, not the claimed 404. -/
theorem delete_nonexistent_id_returns_success :
    emptyDb.pizzas = [] ∧ emptyDb.orders = [] ∧ emptyDb.messages = [] ∧
    adminAuth reqAdminId1.session = true ∧
    (deletePizzaRoute reqAdminId1 emptyDb).resp = okSuccess ∧
    (deleteOrderRoute reqAdminId1 emptyDb).resp = okSuccess ∧
    (deleteMessageRoute reqAdminId1 emptyDb).resp = okSuccess ∧
    okSuccess.status = 200 :=
  ⟨rfl, rfl, rfl, rfl, rfl, rfl, rfl, rfl⟩

/-- C5 amended: an admin delete whose id matches no stored row answers
200 `\x7b success: true \x7d` (there is no rowCount check, hence no 404),
leaves the store unchanged, and raises no error. -/
theorem delete_nonexistent_id_amended (req : Req) (db : Db)
    (hadm : adminAuth req.session = true)
    (hp : ∀ p ∈ db.pizzas, p.id ≠ req.param)
    (ho : ∀ o ∈ db.orders, o.id ≠ req.param)
    (hm : ∀ m ∈ db.messages, m.id ≠ req.param) :
    (deletePizzaRoute req db).resp = okSuccess ∧
    (deletePizzaRoute req db).db = db ∧
    (deleteOrderRoute req db).resp = okSuccess ∧
    (deleteOrderRoute req db).db = db ∧
    (deleteMessageRoute req db).resp = okSuccess ∧
    (deleteMessageRoute req db).db = db := by
  unfold deletePizzaRoute deleteOrderRoute deleteMessageRoute withGuard
  unfold deletePizzaHandler deleteOrderHandler deleteMessageHandler
  simp only [hadm, if_true]
  have fp : db.pizzas.filter (fun p => p.id != req.param) = db.pizzas :=
    List.filter_eq_self.mpr (fun p hpmem => by
      simpa using hp p hpmem)
  have fo : db.orders.filter (fun o => o.id != req.param) = db.orders :=
    List.filter_eq_self.mpr (fun o homem => by
      simpa using ho o homem)
  have fm : db.messages.filter (fun m => m.id != req.param) = db.messages :=
    List.filter_eq_self.mpr (fun m hmmem => by
      simpa using hm m hmmem)
  rw [fp, fo, fm]
  exact ⟨trivial, rfl, trivial, rfl, trivial, rfl⟩

def dbOnePizza : Db :=
  { pizzas := [{ id := 2, name := .str "Margherita", price := some 8
                 image := .str "m.png" }]
    orders := [], messages := []
    nextPizzaId := 3, nextOrderId := 1, nextMessageId := 1 }

theorem delete_nonexistent_id_amended_witness :
    adminAuth reqAdminId1.session = true ∧
    (∀ p ∈ dbOnePizza.pizzas, p.id ≠ reqAdminId1.param) ∧
    (deletePizzaRoute reqAdminId1 dbOnePizza).resp = okSuccess ∧
    (deletePizzaRoute reqAdminId1 dbOnePizza).db = dbOnePizza :=
  ⟨rfl, by decide,
    (delete_nonexistent_id_amended reqAdminId1 dbOnePizza rfl (by decide)
        (by simp [dbOnePizza]) (by simp [dbOnePizza])).1,
    (delete_nonexistent_id_amended reqAdminId1 dbOnePizza rfl (by decide)
        (by simp [dbOnePizza]) (by simp [dbOnePizza])).2.1⟩

/-! ### Claim C10 -/

/-- C10: an admin `PATCH /api/orders/:id` touches nothing but the
`payment_status` column of the rows matching the id: the response is
success, pizzas and messages are untouched, every order with a different
id is unchanged, and the matching order keeps every other field while its
`payment_status` becomes exactly the supplied body value — whatever that
value is, with no transition restriction. -/
theorem patch_order_updates_only_payment_status (req : Req) (db : Db)
    (hadm : adminAuth req.session = true) :
    (patchOrderRoute req db).resp = okSuccess ∧
    (patchOrderRoute req db).db.pizzas = db.pizzas ∧
    (patchOrderRoute req db).db.messages = db.messages ∧
    (patchOrderRoute req db).db.orders.length = db.orders.length ∧
    ∀ i (h1 : i < db.orders.length)
        (h2 : i < (patchOrderRoute req db).db.orders.length),
      ((db.orders.get ⟨i, h1⟩).id ≠ req.param →
        (patchOrderRoute req db).db.orders.get ⟨i, h2⟩ = db.orders.get ⟨i, h1⟩) ∧
      ((db.orders.get ⟨i, h1⟩).id = req.param →
        ((patchOrderRoute req db).db.orders.get ⟨i, h2⟩).payment_status
            = (jsGet req.body "payment_status").getD .null ∧
        { (patchOrderRoute req db).db.orders.get ⟨i, h2⟩ with
            payment_status := (db.orders.get ⟨i, h1⟩).payment_status }
          = db.orders.get ⟨i, h1⟩) := by
  have hroute : patchOrderRoute req db
      = { resp := okSuccess
          db := { db with orders := db.orders.map (fun o =>
            if o.id = req.param
            then { o with payment_status := (jsGet req.body "payment_status").getD .null }
            else o) }
          queries := ["UPDATE orders SET payment_status=$1 WHERE id=$2"] } := by
    unfold patchOrderRoute withGuard patchOrderHandler
    rw [if_pos hadm]
  rw [hroute]
  refine ⟨rfl, rfl, rfl, by simp, ?_⟩
  intro i h1 h2
  have hg : (db.orders.map fun o =>
      if o.id = req.param
      then { o with payment_status := (jsGet req.body "payment_status").getD .null }
      else o).get ⟨i, h2⟩
      = if (db.orders.get ⟨i, h1⟩).id = req.param
        then { db.orders.get ⟨i, h1⟩ with
                 payment_status := (jsGet req.body "payment_status").getD .null }
        else db.orders.get ⟨i, h1⟩ := by
    simp [List.get_eq_getElem, List.getElem_map]
  rw [hg]
  constructor
  · intro hne
    rw [if_neg hne]
  · intro heq
    rw [if_pos heq]
    exact ⟨rfl, rfl⟩

def dbPaidOrder : Db :=
  { pizzas := [], messages := []
    orders := [{ id := 1, name := .str "A", phone := .str "1"
                 address := .str "x", items := .str "[]", total := .num 20
                 payment_method := .str "Online", payment_status := .str "Paid"
                 transaction_id := .null, status := .null, created_at := 1 }]
    nextPizzaId := 1, nextOrderId := 2, nextMessageId := 1 }

def reqRevert1 : Req :=
  { session := some adminSession
    body := .obj [("payment_status", .str "Pending")], param := 1 }

theorem patch_order_updates_only_payment_status_witness :
    adminAuth reqRevert1.session = true ∧
    ((patchOrderRoute reqRevert1 dbPaidOrder).resp = okSuccess ∧
      (patchOrderRoute reqRevert1 dbPaidOrder).db.pizzas = dbPaidOrder.pizzas ∧
      (patchOrderRoute reqRevert1 dbPaidOrder).db.messages = dbPaidOrder.messages ∧
      (patchOrderRoute reqRevert1 dbPaidOrder).db.orders.length
          = dbPaidOrder.orders.length) ∧
    (patchOrderRoute reqRevert1 dbPaidOrder).db.orders.map
        OrderRow.payment_status = [.str "Pending"] :=
  ⟨rfl,
    (fun h => ⟨h.1, h.2.1, h.2.2.1, h.2.2.2.1⟩)
      (patch_order_updates_only_payment_status reqRevert1 dbPaidOrder rfl),
    rfl⟩

/-! ### Claim C6 -/

def dbCodOrder : Db :=
  { pizzas := [], messages := []
    orders := [{ id := 1, name := .str "B", phone := .str "2"
                 address := .str "y", items := .str "[]", total := .num 10
                 payment_method := .str "COD", payment_status := .str "COD"
                 transaction_id := .null, status := .null, created_at := 1 }]
    nextPizzaId := 1, nextOrderId := 2, nextMessageId := 1 }

def reqConfirm1 : Req := { session := none, body := .obj [], param := 1 }

/-- C6 counterexample: the stored order's status is `"COD"`, not
`"Pending"`, yet the public confirm-payment call still rewrites it to
`"Paid"` and reports success — a status change other than
`Pending → Paid`, refuting "performs the Pending-to-Paid transition only". -/
theorem confirm_payment_non_pending_counterexample :
    dbCodOrder.orders.map OrderRow.payment_status = [.str "COD"] ∧
    Json.str "COD" ≠ Json.str "Pending" ∧
    adminAuth reqConfirm1.session = false ∧
    (confirmPaymentRoute reqConfirm1 dbCodOrder).resp = okSuccess ∧
    (confirmPaymentRoute reqConfirm1 dbCodOrder).db.orders.map
        OrderRow.payment_status = [.str "Paid"] :=
  ⟨rfl, fun h => absurd (Json.str.inj h) (by decide), rfl, rfl, rfl⟩

/-- C6 amended: the public, unauthenticated confirm-payment operation
answers 404 iff no order carries the id; on a match it answers success and
force-sets `payment_status` to `"Paid"` regardless of the previous status
(not only from `Pending`), records the supplied `transactionId` verbatim
(defaulting to `"N/A"` when the field is absent), and leaves every other
field and every other order unchanged. -/
theorem confirm_payment_behaviour (req : Req) (db : Db) :
    ((confirmPaymentRoute req db).resp
        = { status := 404, body := .obj [("success", .bool false)] } ↔
      ∀ o ∈ db.orders, o.id ≠ req.param) ∧
    ((∃ o ∈ db.orders, o.id = req.param) →
      (confirmPaymentRoute req db).resp = okSuccess) ∧
    (confirmPaymentRoute req db).db.pizzas = db.pizzas ∧
    (confirmPaymentRoute req db).db.messages = db.messages ∧
    (confirmPaymentRoute req db).db.orders.length = db.orders.length ∧
    ∀ i (h1 : i < db.orders.length)
        (h2 : i < (confirmPaymentRoute req db).db.orders.length),
      ((db.orders.get ⟨i, h1⟩).id ≠ req.param →
        (confirmPaymentRoute req db).db.orders.get ⟨i, h2⟩
            = db.orders.get ⟨i, h1⟩) ∧
      ((db.orders.get ⟨i, h1⟩).id = req.param →
        ((confirmPaymentRoute req db).db.orders.get ⟨i, h2⟩).payment_status
            = .str "Paid" ∧
        ((confirmPaymentRoute req db).db.orders.get ⟨i, h2⟩).transaction_id
            = jsGetD req.body "transactionId" (.str "N/A") ∧
        { (confirmPaymentRoute req db).db.orders.get ⟨i, h2⟩ with
            payment_status := (db.orders.get ⟨i, h1⟩).payment_status
            transaction_id := (db.orders.get ⟨i, h1⟩).transaction_id }
          = db.orders.get ⟨i, h1⟩) := by
  have hcount : (db.orders.countP (fun o => o.id = req.param) = 0) ↔
      ∀ o ∈ db.orders, o.id ≠ req.param := by
    rw [List.countP_eq_zero]
    constructor
    · intro hz o hmem
      simpa using hz o hmem
    · intro hz o hmem
      simpa using hz o hmem
  have horders : (confirmPaymentRoute req db).db.orders
      = db.orders.map (fun o =>
          if o.id = req.param then
            { o with transaction_id := jsGetD req.body "transactionId" (.str "N/A")
                     payment_status := .str "Paid" }
          else o) := by
    unfold confirmPaymentRoute confirmPaymentHandler
    dsimp only
    split <;> rfl
  have hpizzas : (confirmPaymentRoute req db).db.pizzas = db.pizzas := by
    unfold confirmPaymentRoute confirmPaymentHandler
    dsimp only
    split <;> rfl
  have hmsgs : (confirmPaymentRoute req db).db.messages = db.messages := by
    unfold confirmPaymentRoute confirmPaymentHandler
    dsimp only
    split <;> rfl
  have hresp : (confirmPaymentRoute req db).resp
      = if db.orders.countP (fun o => o.id = req.param) = 0
        then { status := 404, body := .obj [("success", .bool false)] }
        else okSuccess := by
    unfold confirmPaymentRoute confirmPaymentHandler
    dsimp only
    split <;> rename_i hc <;> simp [hc]
  refine ⟨?_, ?_, hpizzas, hmsgs, ?_, ?_⟩
  · rw [hresp]
    by_cases hz : db.orders.countP (fun o => o.id = req.param) = 0
    · rw [if_pos hz]
      simp only [true_iff]
      exact fun o hmem => (hcount.mp hz) o hmem
    · rw [if_neg hz]
      constructor
      · intro habs
        exact absurd (congrArg Response.status habs) (by simp [okSuccess])
      · intro hall
        exact absurd (hcount.mpr hall) hz
  · intro ⟨o, hmem, hid⟩
    rw [hresp]
    have hnz : ¬ db.orders.countP (fun o => o.id = req.param) = 0 := by
      rw [hcount]
      intro hall
      exact hall o hmem hid
    rw [if_neg hnz]
  · rw [horders]
    simp
  · intro i h1 h2
    have h2m : i < (db.orders.map (fun o =>
        if o.id = req.param then
          { o with transaction_id := jsGetD req.body "transactionId" (.str "N/A")
                   payment_status := .str "Paid" }
        else o)).length := by
      simpa using h1
    have hg : (confirmPaymentRoute req db).db.orders.get ⟨i, h2⟩
        = if (db.orders.get ⟨i, h1⟩).id = req.param then
            { db.orders.get ⟨i, h1⟩ with
                transaction_id := jsGetD req.body "transactionId" (.str "N/A")
                payment_status := .str "Paid" }
          else db.orders.get ⟨i, h1⟩ := by
      have := List.get_of_eq horders ⟨i, h2⟩
      rw [this]
      simp [List.get_eq_getElem, List.getElem_map]
    rw [hg]
    constructor
    · intro hne
      rw [if_neg hne]
    · intro heq
      rw [if_pos heq]
      exact ⟨rfl, rfl, rfl⟩

theorem confirm_payment_behaviour_witness :
    dbCodOrder.orders.map OrderRow.id = [reqConfirm1.param] ∧
    (confirmPaymentRoute reqConfirm1 dbCodOrder).resp = okSuccess ∧
    (confirmPaymentRoute reqConfirm1 dbCodOrder).db.orders.map
        OrderRow.transaction_id = [.str "N/A"] :=
  ⟨rfl,
    (confirm_payment_behaviour reqConfirm1 dbCodOrder).2.1
      ⟨{ id := 1, name := .str "B", phone := .str "2"
         address := .str "y", items := .str "[]", total := .num 10
         payment_method := .str "COD", payment_status := .str "COD"
         transaction_id := .null, status := .null, created_at := 1 },
       by simp [dbCodOrder], rfl⟩,
    rfl⟩

/-! ### Claim C8 -/

def reqPriceZero : Req :=
  { session := some adminSession
    body := .obj [("name", .str "Margherita"), ("price", .num 0),
                  ("image", .str "m.png")]
    param := 0 }

/-- C8 as stated fails: an authenticated admin request with all three
fields *present* — `price` present with value `0` — is still answered
400, because the handler tests JavaScript truthiness (`!price`), not
presence. -/
theorem post_pizzas_present_falsy_field_rejected :
    (jsGet reqPriceZero.body "name").isSome = true ∧
    (jsGet reqPriceZero.body "price").isSome = true ∧
    (jsGet reqPriceZero.body "image").isSome = true ∧
    adminAuth reqPriceZero.session = true ∧
    (postPizzasRoute reqPriceZero emptyDb).resp.status = 400 :=
  ⟨rfl, rfl, rfl, rfl, rfl⟩

/-- C8 amended: an unauthenticated `POST /api/pizzas` is answered 401
before any validation, with no query issued; an admin request is answered
400 iff one of `name`, `price`, `image` is absent or falsy (so a present
`0` or `""` is also rejected); an admin request with all three truthy
proceeds to the insert and succeeds. -/
theorem post_pizzas_validation (req : Req) (db : Db) :
    (adminAuth req.session = false →
      postPizzasRoute req db
        = { resp := unauthorizedResponse, db := db, queries := [] }) ∧
    (adminAuth req.session = true →
      ((truthyOpt (jsGet req.body "name") && truthyOpt (jsGet req.body "price") &&
          truthyOpt (jsGet req.body "image")) = false →
        (postPizzasRoute req db).resp
            = { status := 400, body := .obj [("error", .str "Missing fields")] } ∧
        (postPizzasRoute req db).db = db ∧
        (postPizzasRoute req db).queries = []) ∧
      ((truthyOpt (jsGet req.body "name") && truthyOpt (jsGet req.body "price") &&
          truthyOpt (jsGet req.body "image")) = true →
        (postPizzasRoute req db).resp = okSuccess ∧
        (postPizzasRoute req db).queries
            = ["INSERT INTO pizzas (name, price, image) VALUES ($1,$2,$3)"])) := by
  constructor
  · intro hf
    unfold postPizzasRoute withGuard
    rw [if_neg (by simp [hf])]
  · intro ht
    have hroute : postPizzasRoute req db = postPizzasHandler req db := by
      unfold postPizzasRoute withGuard
      rw [if_pos ht]
    rw [hroute]
    unfold postPizzasHandler
    constructor
    · intro hv
      have hcond : (!truthyOpt (jsGet req.body "name") ||
          !truthyOpt (jsGet req.body "price") ||
          !truthyOpt (jsGet req.body "image")) = true := by
        cases hn : truthyOpt (jsGet req.body "name") <;>
          cases hp : truthyOpt (jsGet req.body "price") <;>
          cases hi : truthyOpt (jsGet req.body "image") <;> simp_all
      dsimp only
      rw [if_pos hcond]
      exact ⟨rfl, rfl, rfl⟩
    · intro hv
      have hcond : (!truthyOpt (jsGet req.body "name") ||
          !truthyOpt (jsGet req.body "price") ||
          !truthyOpt (jsGet req.body "image")) = false := by
        cases hn : truthyOpt (jsGet req.body "name") <;>
          cases hp : truthyOpt (jsGet req.body "price") <;>
          cases hi : truthyOpt (jsGet req.body "image") <;> simp_all
      dsimp only
      rw [if_neg (by simp [hcond])]
      exact ⟨rfl, rfl⟩

def reqPizzaOk : Req :=
  { session := some adminSession
    body := .obj [("name", .str "Veggie"), ("price", .num 9),
                  ("image", .str "v.png")]
    param := 0 }

theorem post_pizzas_validation_witness :
    adminAuth reqPizzaOk.session = true ∧
    (truthyOpt (jsGet reqPizzaOk.body "name") &&
        truthyOpt (jsGet reqPizzaOk.body "price") &&
        truthyOpt (jsGet reqPizzaOk.body "image")) = true ∧
    ((postPizzasRoute reqPizzaOk emptyDb).resp = okSuccess ∧
      (postPizzasRoute reqPizzaOk emptyDb).queries
          = ["INSERT INTO pizzas (name, price, image) VALUES ($1,$2,$3)"]) :=
  ⟨rfl, rfl, ((post_pizzas_validation reqPizzaOk emptyDb).2 rfl).2 rfl⟩

/-! ### Claim C2 -/

/-- C2: each privileged route — catalog create and delete, order list,
update and delete, message list and delete — runs the adminAuth guard
first: with no admin session the route answers 401 and issues no query,
leaving the store untouched.  Each public route — catalog list, order
create, message create — never consults the session: its outcome is the
same under any two sessions. -/
theorem privileged_routes_guarded_public_routes_open
    (req : Req) (db : Db) (s1 s2 : Option SessionRecord)
    (h : adminAuth req.session = false) :
    (postPizzasRoute req db
        = { resp := unauthorizedResponse, db := db, queries := [] }) ∧
    (deletePizzaRoute req db
        = { resp := unauthorizedResponse, db := db, queries := [] }) ∧
    (getOrdersRoute req db
        = { resp := unauthorizedResponse, db := db, queries := [] }) ∧
    (patchOrderRoute req db
        = { resp := unauthorizedResponse, db := db, queries := [] }) ∧
    (deleteOrderRoute req db
        = { resp := unauthorizedResponse, db := db, queries := [] }) ∧
    (getMessagesRoute req db
        = { resp := unauthorizedResponse, db := db, queries := [] }) ∧
    (deleteMessageRoute req db
        = { resp := unauthorizedResponse, db := db, queries := [] }) ∧
    (getPizzasRoute { session := s1, body := req.body, param := req.param } db
        = getPizzasRoute { session := s2, body := req.body, param := req.param } db) ∧
    (postOrdersRoute { session := s1, body := req.body, param := req.param } db
        = postOrdersRoute { session := s2, body := req.body, param := req.param } db) ∧
    (postMessagesRoute { session := s1, body := req.body, param := req.param } db
        = postMessagesRoute { session := s2, body := req.body, param := req.param } db) := by
  have hng : ∀ hd : Handler,
      withGuard hd req db
        = { resp := unauthorizedResponse, db := db, queries := [] } := by
    intro hd
    unfold withGuard
    rw [if_neg (by simp [h])]
  exact ⟨hng _, hng _, hng _, hng _, hng _, hng _, hng _, rfl, rfl, rfl⟩

theorem privileged_routes_guarded_public_routes_open_witness :
    adminAuth reqNoPm.session = false ∧
    (postPizzasRoute reqNoPm emptyDb
        = { resp := unauthorizedResponse, db := emptyDb, queries := [] }) ∧
    (getOrdersRoute reqNoPm emptyDb
        = { resp := unauthorizedResponse, db := emptyDb, queries := [] }) ∧
    (getPizzasRoute { session := some adminSession, body := reqNoPm.body,
                      param := reqNoPm.param } emptyDb
        = getPizzasRoute { session := none, body := reqNoPm.body,
                           param := reqNoPm.param } emptyDb) :=
  ⟨rfl,
    (privileged_routes_guarded_public_routes_open reqNoPm emptyDb
        (some adminSession) none rfl).1,
    (privileged_routes_guarded_public_routes_open reqNoPm emptyDb
        (some adminSession) none rfl).2.2.1,
    (privileged_routes_guarded_public_routes_open reqNoPm emptyDb
        (some adminSession) none rfl).2.2.2.2.2.2.2.1⟩

/-! ### Claim C7 -/

/-- C7: a successful admin `GET /api/orders` answers 200 with exactly the
normalised rows: each returned row differs from its stored counterpart at
most in `items`; an `items` column the store returned as a string comes
back as its `JSON.parse` result and never as the raw serialised string
itself, and a structured `items` column is passed through unchanged. -/
theorem get_orders_items_never_raw_string (req : Req) (db : Db)
    (out : List OrderRow)
    (hadm : adminAuth req.session = true)
    (hfix : fixOrders (sortDescBy OrderRow.created_at db.orders) = some out) :
    (getOrdersRoute req db).resp
        = { status := 200, body := .arr (out.map orderToJson) } ∧
    out.length = (sortDescBy OrderRow.created_at db.orders).length ∧
    ∀ i (h1 : i < (sortDescBy OrderRow.created_at db.orders).length)
        (h2 : i < out.length),
      ({ out.get ⟨i, h2⟩ with
           items := ((sortDescBy OrderRow.created_at db.orders).get ⟨i, h1⟩).items }
          = (sortDescBy OrderRow.created_at db.orders).get ⟨i, h1⟩) ∧
      (∀ s, ((sortDescBy OrderRow.created_at db.orders).get ⟨i, h1⟩).items = .str s →
        parseJson s = some (out.get ⟨i, h2⟩).items ∧
        (out.get ⟨i, h2⟩).items ≠ .str s) ∧
      ((∀ s, ((sortDescBy OrderRow.created_at db.orders).get ⟨i, h1⟩).items ≠ .str s) →
        out.get ⟨i, h2⟩ = (sortDescBy OrderRow.created_at db.orders).get ⟨i, h1⟩) := by
  obtain ⟨hlen, hidx⟩ := optTraverse_spec fixItems _ out hfix
  refine ⟨?_, hlen, ?_⟩
  · unfold getOrdersRoute withGuard getOrdersHandler
    rw [if_pos hadm]
    simp only [fixOrders] at hfix
    simp only [fixOrders, hfix]
  · intro i h1 h2
    exact fixItems_spec _ _ (hidx i h1 h2)

def reqOrdersList : Req :=
  { session := some adminSession, body := .obj [], param := 0 }

def dbStrItems : Db :=
  { pizzas := [], messages := []
    orders := [{ id := 1, name := .str "A", phone := .str "1"
                 address := .str "x", items := .str "[1,2]", total := .num 20
                 payment_method := .str "COD", payment_status := .str "Paid"
                 transaction_id := .null, status := .null, created_at := 1 }]
    nextPizzaId := 1, nextOrderId := 2, nextMessageId := 1 }

def outFixed : List OrderRow :=
  [{ id := 1, name := .str "A", phone := .str "1"
     address := .str "x", items := .arr [.num 1, .num 2], total := .num 20
     payment_method := .str "COD", payment_status := .str "Paid"
     transaction_id := .null, status := .null, created_at := 1 }]

theorem get_orders_items_never_raw_string_witness :
    adminAuth reqOrdersList.session = true ∧
    fixOrders (sortDescBy OrderRow.created_at dbStrItems.orders) = some outFixed ∧
    (getOrdersRoute reqOrdersList dbStrItems).resp
        = { status := 200, body := .arr (outFixed.map orderToJson) } :=
  ⟨rfl, rfl,
    (get_orders_items_never_raw_string reqOrdersList dbStrItems outFixed
        rfl rfl).1⟩

end PizzaHaven
